import Mathlib

/-!
# News Pulse — verification of the RSS fetch/cache/dedup service and the
enrichment (Gemini) service

Shallow embedding of the news-aggregation core:

* `rssService` (embedded in `tailwind.config.js` after the config object):
  `generateId`, `fetchNewsForCategory` with its two cache tiers, the
  four-proxy fan-out, the per-item parser and the title deduplicator.
* `geminiService.ts`: `enhanceArticle` (three-tier article-enrichment
  cache) and `generateNewsAudio` (two-tier audio cache keyed before
  cleaning).

Browser/platform primitives that are not part of the repository
(DOM HTML-stripping via `innerHTML`/`textContent`, `URL` host parsing,
`Date` locale formatting, the network itself) are modelled as explicit
parameters of the environment: every theorem quantifies over them.
JavaScript strings are modelled as Lean `String`s (sequences of code
points); the sources use only code-unit-agnostic operations on the paths
verified here.
-/

namespace NewsPulse

/-! ## JavaScript numeric and string primitives -/

/-- Two's-complement wrap of an integer into the signed 32-bit range,
the effect of JavaScript `| 0` (`ToInt32`). -/
def wrap32 (n : Int) : Int :=
  let m := n % 4294967296
  if m < 2147483648 then m else m - 4294967296

/-- JavaScript `x << 5` on an int32 value: multiply by 32 and wrap. -/
def jsShl5 (h : Int) : Int := wrap32 (h * 32)

/-- JavaScript `s || d` for an optional string: `d` when the value is
absent (`undefined`/`null`) or the empty string (both falsy). -/
def jsOrElse (o : Option String) (d : String) : String :=
  match o with
  | some s => if s = "" then d else s
  | none => d

/-- JavaScript `String.prototype.trim()`: whitespace removed from both
ends (modelled over code points with Lean's `Char.isWhitespace`). -/
def jsTrim (s : String) : String :=
  String.mk (((s.data.dropWhile Char.isWhitespace).reverse.dropWhile Char.isWhitespace).reverse)

/-- JavaScript `s.substring(0, n)` / `s.slice(0, n)` (counting code
points where JavaScript counts UTF-16 units; identical on the basic
multilingual plane). -/
def jsSubstring (s : String) (n : Nat) : String := String.mk (s.data.take n)

/-- Base-36 digit character, `0-9` then `a-z`, as produced by
JavaScript `Number.prototype.toString(36)`. -/
def digitChar36 (n : Nat) : Char :=
  if n < 10 then Char.ofNat (48 + n) else Char.ofNat (87 + n)

/-- Base-36 rendering of a natural number, matching JavaScript
`n.toString(36)` for non-negative integers (`0` renders as `"0"`). -/
def toBase36 (n : Nat) : List Char :=
  if h : n < 36 then [digitChar36 n]
  else
    have : 0 < n := Nat.lt_of_lt_of_le (by norm_num) (Nat.le_of_not_lt h)
    toBase36 (n / 36) ++ [digitChar36 (n % 36)]
  decreasing_by exact Nat.div_lt_self this (by norm_num)

/-! ## `generateId` (rssService lines 60–68)

```js
const generateId = (str) => {
  let hash = 0;
  for (let i = 0; i < str.length; i++) {
    const char = str.charCodeAt(i);
    hash = (hash << 5) - hash + char;
    hash |= 0;
  }
  return 'rss_' + Math.abs(hash).toString(36);
};
```
-/

/-- One loop iteration of `generateId`: `hash = (hash << 5) - hash + char`
followed by `hash |= 0`.  The shift itself wraps to int32 before the
subtraction, exactly as in JavaScript. -/
def generateIdStep (hash : Int) (code : Nat) : Int :=
  wrap32 (jsShl5 hash - hash + code)

/-- The rolling hash of `generateId` over the character codes of the
input string. -/
def generateIdHash (s : String) : Int :=
  s.data.foldl (fun hash c => generateIdStep hash c.toNat) 0

/-- Source `generateId`: rolling 32-bit hash, absolute value,
base-36, `rss_` namespace prefix. -/
def generateId (s : String) : String :=
  "rss_" ++ String.mk (toBase36 (generateIdHash s).natAbs)

/-- The spec's reference step: `hash = hash*31 + code`, wrapped to the
32-bit signed range (spec §4.1). -/
def generateIdStepSpec (hash : Int) (code : Nat) : Int :=
  wrap32 (hash * 31 + code)

/-- Identifier generator as worded by the spec (§4.1): fold character
codes with `hash*31 + code` wrapped to int32, absolute value, base-36,
namespace tag. -/
def generateIdSpec (s : String) : String :=
  "rss_" ++ String.mk (toBase36 ((s.data.foldl (fun hash c => generateIdStepSpec hash c.toNat) 0)).natAbs)

lemma wrap32_emod (n : Int) : wrap32 n % 4294967296 = n % 4294967296 := by
  unfold wrap32
  have h0 : (0:Int) < 4294967296 := by norm_num
  have h1 := Int.emod_nonneg n (by norm_num : (4294967296:Int) ≠ 0)
  have h2 := Int.emod_lt_of_pos n h0
  by_cases h : n % 4294967296 < 2147483648 <;> simp only [h, if_true, if_false] <;> omega

lemma wrap32_congr {a b : Int} (h : a % 4294967296 = b % 4294967296) :
    wrap32 a = wrap32 b := by
  unfold wrap32
  rw [h]

lemma generateIdStep_eq_spec (h : Int) (c : Nat) :
    generateIdStep h c = generateIdStepSpec h c := by
  unfold generateIdStep generateIdStepSpec jsShl5
  apply wrap32_congr
  have : wrap32 (h * 32) % 4294967296 = (h * 32) % 4294967296 := wrap32_emod _
  omega

/-! ## Title normalisation and the deduplicator (rssService lines 297–303)

```js
const seenTitles = new Set();
const uniqueArticles = allArticles.filter(article => {
  const normalizedTitle = article.title.toLowerCase().replace(/[^a-z0-9]/g, '');
  if (seenTitles.has(normalizedTitle)) return false;
  seenTitles.add(normalizedTitle);
  return true;
});
```
-/

/-- Characters kept by the regex `[^a-z0-9]` replacement: lower-case
ASCII letters and ASCII digits. -/
def isLowerAlnum (c : Char) : Bool :=
  ('a' ≤ c && c ≤ 'z') || ('0' ≤ c && c ≤ '9')

/-- Source expression `title.toLowerCase().replace(/[^a-z0-9]/g, '')`. -/
def normalizeTitle (t : String) : String :=
  String.mk ((t.data.map Char.toLower).filter isLowerAlnum)

/-- An article record as constructed by the service (optional fields the
claims never inspect are still carried as plain strings). -/
structure Article where
  id : String
  title : String
  source : String
  timestamp : String
  description : String
  category : String
  url : String
  imageUrl : String
  deriving Repr, DecidableEq

/-- The filter body of the deduplicator: `seen` is the set (here: list)
of normalised titles already encountered; an article whose normalised
title is in `seen` is dropped, otherwise kept and its title added. -/
def dedupGo (seen : List String) : List Article → List Article
  | [] => []
  | a :: rest =>
    let n := normalizeTitle a.title
    if seen.contains n then dedupGo seen rest
    else a :: dedupGo (n :: seen) rest

/-- The deduplicator applied to the flattened article sequence. -/
def dedupArticles (l : List Article) : List Article := dedupGo [] l

/-- Specification-level deduplicator (spec §4.5 wording): walk the
sequence carrying the list of *all earlier articles*; keep an article
iff its normalised title does not occur among the earlier articles'
normalised titles.  First occurrence wins, order preserved. -/
def dedupSpecFrom (earlier : List Article) : List Article → List Article
  | [] => []
  | a :: rest =>
    if (earlier.map (fun b => normalizeTitle b.title)).contains (normalizeTitle a.title)
    then dedupSpecFrom (earlier ++ [a]) rest
    else a :: dedupSpecFrom (earlier ++ [a]) rest

/-- Deduplication as specified: keep an article iff its normalised title
has not occurred earlier in the input sequence. -/
def dedupSpec (l : List Article) : List Article := dedupSpecFrom [] l

lemma contains_append_strings (l1 l2 : List String) (x : String) :
    (l1 ++ l2).contains x = (l1.contains x || l2.contains x) := by
  induction l1 with
  | nil => simp
  | cons a l ih => simp [List.contains_cons, ih, Bool.or_assoc]

lemma contains_snoc_title (earlier : List Article) (a : Article) (x : String) :
    ((earlier ++ [a]).map (fun b => normalizeTitle b.title)).contains x
      = (((earlier.map (fun b => normalizeTitle b.title)).contains x)
          || (x == normalizeTitle a.title)) := by
  rw [List.map_append, contains_append_strings]
  simp only [List.map_cons, List.map_nil, List.contains_cons, List.contains_nil, Bool.or_false]

lemma dedupGo_eq_dedupSpecFrom (l : List Article) :
    ∀ (seen : List String) (earlier : List Article),
      (∀ x, seen.contains x = (earlier.map (fun b => normalizeTitle b.title)).contains x) →
      dedupGo seen l = dedupSpecFrom earlier l := by
  induction l with
  | nil => intro seen earlier _; rfl
  | cons a rest ih =>
    intro seen earlier hinv
    simp only [dedupGo, dedupSpecFrom]
    rw [hinv (normalizeTitle a.title)]
    by_cases h : ((earlier.map (fun b => normalizeTitle b.title)).contains (normalizeTitle a.title)) = true
    · simp only [h, if_true]
      refine ih seen (earlier ++ [a]) ?_
      intro x
      rw [contains_snoc_title, hinv x]
      by_cases hx : x = normalizeTitle a.title
      · subst hx; rw [h]; simp
      · rw [beq_eq_false_iff_ne.mpr hx, Bool.or_false]
    · simp only [h, if_false]
      refine congrArg (List.cons a) (ih (normalizeTitle a.title :: seen) (earlier ++ [a]) ?_)
      intro x
      rw [contains_snoc_title, List.contains_cons, hinv x, Bool.or_comm]

lemma dedupGo_sublist (l : List Article) : ∀ seen, (dedupGo seen l).Sublist l := by
  induction l with
  | nil => intro _; exact List.Sublist.refl _
  | cons a rest ih =>
    intro seen
    simp only [dedupGo]
    by_cases h : (seen.contains (normalizeTitle a.title)) = true
    · simp only [h, if_true]
      exact (ih seen).trans (List.sublist_cons_self a rest)
    · simp only [h, if_false]
      exact (ih _).cons₂ a

/-- Claim C3: the deduplicator keeps an article iff its normalised title
(lower-cased, all non-alphanumeric characters stripped) has not occurred
earlier in the flattened sequence — first occurrence wins regardless of
URL — and the retained articles form a subsequence of the input, so
relative order is preserved. -/
theorem dedupArticles_first_occurrence_wins (l : List Article) :
    dedupArticles l = dedupSpec l ∧ (dedupArticles l).Sublist l :=
  ⟨dedupGo_eq_dedupSpecFrom l [] [] (fun _ => rfl), dedupGo_sublist l []⟩

/-- Claim C5: `generateId` is deterministic (it is a pure function of its
argument: the source reads no external state) and agrees with the spec's
reference definition — fold the character codes with `hash*31 + code`
wrapped to the signed 32-bit range, take the absolute value, render in
base 36, and prefix the `rss_` namespace tag.  In particular identifiers
for a given canonical URL are stable across sessions. -/
theorem generateId_deterministic_eq_spec (s : String) :
    generateId s = generateIdSpec s ∧ generateId s = generateId s := by
  refine ⟨?_, rfl⟩
  unfold generateId generateIdSpec generateIdHash
  have hfun : (fun (hash : Int) (c : Char) => generateIdStep hash c.toNat)
      = (fun (hash : Int) (c : Char) => generateIdStepSpec hash c.toNat) := by
    funext h c
    exact generateIdStep_eq_spec h c.toNat
  rw [hfun]

/-! ## Feed items and the per-item parser (rssService lines 255–285)

A parsed `<item>` element.  `none` models an absent child element (or a
`null` attribute); the DOM `textContent` of a present element is a
string, possibly empty.

```js
const title = item.querySelector("title")?.textContent || "No Title";
const link = item.querySelector("link")?.textContent || "";
const pubDate = item.querySelector("pubDate")?.textContent || "";
const rawDescription = item.querySelector("description")?.textContent || "";
const tempDiv = document.createElement("div");
tempDiv.innerHTML = rawDescription;
const cleanDescription = tempDiv.textContent?.trim().substring(0, 200) + "..." || "";
```
-/

structure FeedItem where
  title : Option String
  link : Option String
  pubDate : Option String
  description : Option String
  mediaUrl : Option String
  deriving Repr, DecidableEq

/-- Browser primitives the parser delegates to; they are outside the
repository, so they are carried as opaque parameters.
`stripHtml` is the `innerHTML` → `textContent` round trip of the scratch
`<div>`, `formatTime` is `new Date(d).toLocaleTimeString(...)`, and
`imgFromDesc` is the `/<img[^>]+src="([^">]+)"/` capture on the raw
description. -/
structure ParseEnv where
  stripHtml : String → String
  formatTime : String → String
  imgFromDesc : String → Option String

/-- The per-item mapping of the live-fetch stage, producing an `Article`
from a parsed `<item>` (rssService lines 257–285). -/
def parseItem (penv : ParseEnv) (category sourceName : String) (item : FeedItem) : Article :=
  let title := jsOrElse item.title "No Title"
  let link := jsOrElse item.link ""
  let pubDate := jsOrElse item.pubDate ""
  let rawDescription := jsOrElse item.description ""
  let cleanDescription := (jsSubstring (jsTrim (penv.stripHtml rawDescription)) 200) ++ "..."
  let fromMedia := match item.mediaUrl with
    | some u => u
    | none => ""
  let imageUrl := if fromMedia = "" then
      match penv.imgFromDesc rawDescription with
      | some u => u
      | none => ""
    else fromMedia
  { id := generateId link
    title := title
    source := sourceName
    timestamp := if pubDate = "" then "Recent" else penv.formatTime pubDate
    description := cleanDescription
    category := category
    url := link
    imageUrl := imageUrl }

/-! ## The four-relay fan-out (rssService lines 220–291) -/

/-- The four public relay endpoints, in source order. -/
inductive ProxyKind where
  | allorigins
  | codetabs
  | corsproxy
  | thingproxy
  deriving Repr, DecidableEq

/-- The fixed relay order of the `proxies` array. -/
def proxyOrder : List ProxyKind :=
  [.allorigins, .codetabs, .corsproxy, .thingproxy]

/-- Relay request URL templates from the source; `enc` is the browser's
`encodeURIComponent` (the `thingproxy` entry interpolates the raw URL). -/
def proxyUrl (enc : String → String) (k : ProxyKind) (url : String) : String :=
  match k with
  | .allorigins => "https://api.allorigins.win/get?url=" ++ enc url
  | .codetabs => "https://api.codetabs.com/v1/proxy?quest=" ++ enc url
  | .corsproxy => "https://corsproxy.io/?" ++ enc url
  | .thingproxy => "https://thingproxy.freeboard.io/fetch/" ++ url

/-- Source `setTimeout(() => controller.abort(), 6000)`: the per-request abort
timeout, in milliseconds. -/
def PROXY_ABORT_MS : Nat := 6000

/-- Source `CACHE_DURATION = 5 * 60 * 1000`: the freshness window, in
milliseconds. -/
def CACHE_WINDOW_MS : Nat := 5 * 60 * 1000

/-- Outcome of one relay attempt, covering every control path of the
loop body: a rejected/aborted `fetch` (including the 6-second abort), a
non-success HTTP status (`throw` on `!response.ok`, caught by the same
`catch`), falsy content (`if (!rssContent) continue`), an XML document
containing a `parsererror` element, or a parsed item list. -/
inductive RelayOutcome where
  | netError
  | httpError (status : Nat)
  | empty
  | parseError
  | parsed (items : List FeedItem)
  deriving Repr, DecidableEq

/-- The `for (const proxy of proxies)` loop: advance past every failing
relay, stop at the first relay whose document parses into at least one
item; `none` when the relay list is exhausted. -/
def tryProxies (outcome : ProxyKind → RelayOutcome) : List ProxyKind → Option (List FeedItem)
  | [] => none
  | p :: rest =>
    match outcome p with
    | .parsed (i :: is) => some (i :: is)
    | _ => tryProxies outcome rest

/-- The whole per-feed fan-out (`fetchPromises` element): articles of the
first successful relay, or `[]` when all four relays fail
(`return [];` after the loop — never an exception). -/
def fetchFeed (penv : ParseEnv) (category sourceName : String)
    (outcome : ProxyKind → RelayOutcome) : List Article :=
  match tryProxies outcome proxyOrder with
  | some items => items.map (parseItem penv category sourceName)
  | none => []

/-! ## `fetchNewsForCategory` (rssService lines 116–334) -/

/-- Result of reading the `rss_feed_cache` row for the category.
`error` is a thrown/failed query (caught: `console.warn` only);
`missing` is no row, an error result, or a row whose `articles` field is
absent — all fall through the `data && !error && data.articles &&
data.articles.length > 0` guard the same way. -/
inductive RemoteCacheRead where
  | error
  | missing
  | row (updatedAt : Nat) (articles : List Article)
  deriving Repr, DecidableEq

/-- Result of reading the `localStorage` entry for the category.
`corrupt` is a `JSON.parse` failure (caught: `console.error` only). -/
inductive LocalCacheRead where
  | absent
  | corrupt
  | entry (timestamp : Nat) (articles : List Article)
  deriving Repr, DecidableEq

/-- Environment of one `fetchNewsForCategory` call: the clock, the
configuration flag, the two cache tiers for the requested category, the
category's feed list (`RSS_FEEDS[category]`), the per-feed per-relay
network outcomes, the browser parsing primitives, and the host-name
derivation `new URL(url).hostname...` (browser `URL`, opaque here).
`localWriteOk` is the outcome of the `localStorage.setItem` call that
persists a non-empty live batch: `false` models a thrown write (e.g.
quota exceeded), which the source's surrounding `try`/`catch` turns into
a fall-through to the stale fallback.
`studioArticles`/`galleryArticles` are the mapped rows of the
`telegram_posts`/`gallery_posts` tables consumed by the two
database-backed branches; those tables are external collaborators
(spec §1) and their row mapping is out of claim scope. -/
structure FetchEnv where
  now : Nat
  configured : Bool
  remote : RemoteCacheRead
  localEntry : LocalCacheRead
  feeds : List String
  outcome : String → ProxyKind → RelayOutcome
  parse : ParseEnv
  sourceNameOf : String → String
  localWriteOk : Bool
  studioArticles : List Article
  galleryArticles : List Article

/-- Observable result of a call: the returned articles and whether the
live-fetch fan-out issued any relay request. -/
structure FetchResult where
  articles : List Article
  liveFetchIssued : Bool
  deriving Repr, DecidableEq

/-- Tier 1 (Supabase `rss_feed_cache`, lines 177–198): a fresh non-empty
row is returned outright; a stale non-empty row is retained as
`supabaseStaleData`; everything else — unconfigured client, query error
(caught), missing row, empty `articles` — is a miss. -/
def supabaseTier (env : FetchEnv) : Option (List Article) × List Article :=
  if env.configured then
    match env.remote with
    | .row updatedAt arts =>
      if arts.isEmpty then (none, [])
      else if env.now - updatedAt < CACHE_WINDOW_MS then (some arts, [])
      else (none, arts)
    | _ => (none, [])
  else (none, [])

/-- Tier 2 (`localStorage`, lines 201–214): a fresh entry is returned
outright (no emptiness check in the source); a stale entry is retained
as `localStaleData`; an absent or unparsable entry is a miss. -/
def localTier (env : FetchEnv) : Option (List Article) × List Article :=
  match env.localEntry with
  | .entry ts arts =>
    if env.now - ts < CACHE_WINDOW_MS then (some arts, [])
    else (none, arts)
  | _ => (none, [])

/-- Stage 3 (lines 220–303): concurrent fan-out over the category's feed
URLs joined by `Promise.all`, flattened, then deduplicated. -/
def liveArticles (env : FetchEnv) (category : String) : List Article :=
  dedupArticles
    ((env.feeds.map
      (fun url => fetchFeed env.parse category (env.sourceNameOf url) (env.outcome url))).flatten)

/-- The RSS path of `fetchNewsForCategory` (everything after the two
database-backed branches): cache tiers, live fetch, stale fallback.
On a non-empty live batch the source first runs `localStorage.setItem`
(line 306) *inside* the `try` block (lines 293–327): if that write
throws, the `return uniqueArticles` at line 323 is skipped and the
`catch` falls through to the stale fallback (lines 330–333) — the
`env.localWriteOk = false` branch below.  The Supabase upsert (lines
311–321) is fire-and-forget (`.then` only) and cannot divert this path,
so it is not part of the result. -/
def rssPath (env : FetchEnv) (category : String) : FetchResult :=
  let s := supabaseTier env
  match s.1 with
  | some arts => ⟨arts, false⟩
  | none =>
    let l := localTier env
    match l.1 with
    | some arts => ⟨arts, false⟩
    | none =>
      if env.feeds.isEmpty then ⟨[], false⟩
      else
        let uniq := liveArticles env category
        let fallback : FetchResult :=
          if s.2.isEmpty then
            if l.2.isEmpty then ⟨[], true⟩
            else ⟨l.2, true⟩
          else ⟨s.2, true⟩
        if uniq.isEmpty then fallback
        else if env.localWriteOk then ⟨uniq, true⟩
        else fallback

/-- The category argument: the two special database-backed categories
and the RSS categories (all remaining members of the `Category` enum). -/
inductive Category where
  | azadStudio
  | gallery
  | rssCat (name : String)
  deriving Repr, DecidableEq

/-- Dispatch of `fetchNewsForCategory`: the `AZAD_STUDIO` branch (lines 117–167) and
the `GALLERY` branch (lines 169–171) read their external tables and
never touch the RSS caches or relays; every other category takes the
RSS path. -/
def fetchNewsForCategory (env : FetchEnv) : Category → FetchResult
  | .azadStudio => ⟨env.studioArticles, false⟩
  | .gallery => ⟨env.galleryArticles, false⟩
  | .rssCat name => rssPath env name

/-! ## Claim C2: the relay fan-out -/

/-- Specification-side view of one relay attempt: it succeeds exactly
when it yields a parsed list with at least one item. -/
def relaySuccess : RelayOutcome → Option (List FeedItem)
  | .parsed (i :: is) => some (i :: is)
  | _ => none

lemma tryProxies_eq_findSome (outcome : ProxyKind → RelayOutcome) :
    ∀ l : List ProxyKind,
      tryProxies outcome l = l.findSome? (fun p => relaySuccess (outcome p)) := by
  intro l
  induction l with
  | nil => rfl
  | cons p rest ih =>
    simp only [tryProxies, List.findSome?_cons]
    cases h : outcome p with
    | parsed items =>
      cases items with
      | nil => simpa [relaySuccess] using ih
      | cons i is => simp [relaySuccess]
    | netError => simpa [relaySuccess] using ih
    | httpError s => simpa [relaySuccess] using ih
    | empty => simpa [relaySuccess] using ih
    | parseError => simpa [relaySuccess] using ih

/-- Claim C2: the fan-out for a feed tries exactly the four fixed relays in
their fixed source order, each request bounded by the 6-second abort
timeout; a rejected or aborted request, a non-success HTTP status, empty
content, an XML parse failure, and a zero-item parse all advance to the
next relay (`relaySuccess` maps each of them to `none`); it stops with
the parsed articles at the first relay yielding at least one item; and
when all four relays fail it returns `[]` — its codomain is a plain
list, so no error can be raised. -/
theorem fanout_four_relays_first_success (penv : ParseEnv)
    (category sourceName : String) (outcome : ProxyKind → RelayOutcome) :
    proxyOrder = [.allorigins, .codetabs, .corsproxy, .thingproxy] ∧
    proxyOrder.length = 4 ∧
    PROXY_ABORT_MS = 6000 ∧
    (∀ s, relaySuccess .netError = none ∧ relaySuccess (.httpError s) = none ∧
      relaySuccess .empty = none ∧ relaySuccess .parseError = none ∧
      relaySuccess (.parsed []) = none) ∧
    fetchFeed penv category sourceName outcome =
      (match proxyOrder.findSome? (fun p => relaySuccess (outcome p)) with
        | some items => items.map (parseItem penv category sourceName)
        | none => []) := by
  refine ⟨rfl, rfl, rfl, fun s => ⟨rfl, rfl, rfl, rfl, rfl⟩, ?_⟩
  simp only [fetchFeed, tryProxies_eq_findSome]

/-! ## Claim C8: the per-item parser -/

/-- Claim C8: for every parsed feed item, the article's description is the
raw description with embedded markup stripped (the `innerHTML` →
`textContent` round trip `stripHtml`), trimmed, truncated to 200
characters, with a trailing `"..."` appended; and the title defaults to
the placeholder `"No Title"` when the item has no title element. -/
theorem parseItem_description_title (penv : ParseEnv)
    (category sourceName : String) (item : FeedItem) :
    (parseItem penv category sourceName item).description
      = (jsSubstring (jsTrim (penv.stripHtml (jsOrElse item.description ""))) 200) ++ "..." ∧
    (item.title = none → (parseItem penv category sourceName item).title = "No Title") := by
  constructor
  · rfl
  · intro h
    simp [parseItem, h, jsOrElse]

/-- Witness for C8 at a concrete item with no title and a markup-free
description, with the browser strip function taken as the identity. -/
theorem parseItem_description_title_witness :
    (parseItem ⟨id, id, fun _ => none⟩ "WORLD" "BBC"
        ⟨none, some "http://x", none, some "hello", none⟩).description = "hello..." ∧
    (parseItem ⟨id, id, fun _ => none⟩ "WORLD" "BBC"
        ⟨none, some "http://x", none, some "hello", none⟩).title = "No Title" := by
  refine ⟨?_, (parseItem_description_title ⟨id, id, fun _ => none⟩ "WORLD" "BBC"
      ⟨none, some "http://x", none, some "hello", none⟩).2 rfl⟩
  rw [(parseItem_description_title ⟨id, id, fun _ => none⟩ "WORLD" "BBC"
      ⟨none, some "http://x", none, some "hello", none⟩).1]
  decide

/-! ## Claims C1 and C4: cache tiers and stale fallback -/

lemma isEmpty_false_of_ne {α : Type} {l : List α} (h : l ≠ []) : l.isEmpty = false := by
  cases l with
  | nil => exact absurd rfl h
  | cons a t => rfl

/-- Claim C1 (amended): for an RSS category, (1) a *non-empty* remote
`rss_feed_cache` row younger than the 5-minute window is returned
exactly, with no relay fetch; (2) when the remote tier does not return
(unconfigured, error, missing, empty, or stale), a fresh local entry is
returned exactly, with no relay fetch — the remote row is consulted
first; (3)–(4) an error at either tier (a thrown remote query, a corrupt
local entry) behaves identically to a plain miss, i.e. is swallowed.
The amendment relative to the original claim: the remote tier returns a
fresh batch only when it is non-empty (`data.articles.length > 0`); a
fresh *empty* remote batch is skipped and the live fetch proceeds (see
the counterexample). -/
theorem fetchNews_fresh_cache_tiers (env : FetchEnv) (name : String) :
    (∀ t arts, env.configured = true → env.remote = .row t arts → arts ≠ [] →
      env.now - t < CACHE_WINDOW_MS →
      fetchNewsForCategory env (.rssCat name) = ⟨arts, false⟩) ∧
    (∀ ts arts, (supabaseTier env).1 = none → env.localEntry = .entry ts arts →
      env.now - ts < CACHE_WINDOW_MS →
      fetchNewsForCategory env (.rssCat name) = ⟨arts, false⟩) ∧
    rssPath { env with remote := .error } name = rssPath { env with remote := .missing } name ∧
    rssPath { env with localEntry := .corrupt } name
      = rssPath { env with localEntry := .absent } name := by
  refine ⟨?_, ?_, ?_, ?_⟩
  · intro t arts hconf hrem hne hfresh
    have hs : supabaseTier env = (some arts, []) := by
      unfold supabaseTier
      rw [hconf, hrem]
      simp [isEmpty_false_of_ne hne, hfresh]
    simp [fetchNewsForCategory, rssPath, hs]
  · intro ts arts hs hloc hfresh
    have hl : localTier env = (some arts, []) := by
      unfold localTier
      rw [hloc]
      simp [hfresh]
    simp [fetchNewsForCategory, rssPath, hs, hl]
  · rfl
  · rfl

/-- Environment of the C1 counterexample: a *fresh but empty* remote
cache row, no local entry, and one feed whose first relay succeeds. -/
def c1env : FetchEnv :=
  { now := 600000
    configured := true
    remote := .row 600000 []
    localEntry := .absent
    feeds := ["http://feed"]
    outcome := fun _ _ => .parsed [⟨some "Title", some "http://a", none, none, none⟩]
    parse := ⟨id, id, fun _ => none⟩
    sourceNameOf := fun _ => "SRC"
    localWriteOk := true
    studioArticles := []
    galleryArticles := [] }

/-- Claim C1 counterexample: the remote tier holds a cached article batch
(the empty sequence) of age `0`, well inside the 5-minute window, yet
`fetchNewsForCategory` does not return that cached sequence — it issues
the relay fan-out and returns its (non-empty) result, because the source
skips remote rows with `data.articles.length === 0`. -/
theorem fetchNews_fresh_cache_counterexample :
    c1env.configured = true ∧
    c1env.remote = .row 600000 [] ∧
    c1env.now - 600000 < CACHE_WINDOW_MS ∧
    (fetchNewsForCategory c1env (.rssCat "WORLD")).liveFetchIssued = true ∧
    (fetchNewsForCategory c1env (.rssCat "WORLD")).articles ≠ [] := by
  refine ⟨rfl, rfl, by decide, ?_, ?_⟩ <;> decide

/-- The stale preference of the fallback block (lines 330–333): the
stale remote batch if non-empty, else the stale local batch if
non-empty, else the empty sequence. -/
def staleChoice (env : FetchEnv) : List Article :=
  if (supabaseTier env).2 ≠ [] then (supabaseTier env).2
  else if (localTier env).2 ≠ [] then (localTier env).2
  else []

/-- A stale article sitting in the remote cache row of the C4
counterexample. -/
def c4staleArticle : Article :=
  ⟨"s1", "Stale", "SRC", "09:00", "d", "WORLD", "http://s", ""⟩

/-- Environment of the C4 counterexample: a stale non-empty remote row,
a feed whose first relay succeeds, and a `localStorage.setItem` that
throws. -/
def c4cenv : FetchEnv :=
  { now := 600000
    configured := true
    remote := .row 0 [c4staleArticle]
    localEntry := .absent
    feeds := ["http://feed"]
    outcome := fun _ _ => .parsed [⟨some "Live", some "http://a", none, none, none⟩]
    parse := ⟨id, id, fun _ => none⟩
    sourceNameOf := fun _ => "SRC"
    localWriteOk := false
    studioArticles := []
    galleryArticles := [] }

/-- Claim C4 counterexample: the live fetch succeeds with a non-empty
deduplicated batch (titled `"Live"`), yet because `localStorage.setItem`
throws inside the `try` block, the `return uniqueArticles` is skipped
and the call returns the *stale* remote batch (titled `"Stale"`) — a
non-empty live batch replaced by stale data, and stale data returned
although the live fetch did not fail. -/
theorem fetchNews_stale_fallback_counterexample :
    (liveArticles c4cenv "WORLD").map (fun a => a.title) = ["Live"] ∧
    c4cenv.localWriteOk = false ∧
    fetchNewsForCategory c4cenv (.rssCat "WORLD") = ⟨[c4staleArticle], true⟩ ∧
    (fetchNewsForCategory c4cenv (.rssCat "WORLD")).articles.map (fun a => a.title)
      = ["Stale"] := by
  decide

/-- Claim C4 (amended): once both cache tiers have declined to return a
fresh batch and the category has feed URLs, a non-empty live
deduplicated batch is returned — never replaced by stale data —
*provided the local cache write succeeds*; when the write throws, or
when the live batch is empty (the live fetch entirely failed), the call
falls back to the stale remote batch if non-empty, else the stale local
batch if non-empty, else the empty sequence. -/
theorem fetchNews_stale_fallback (env : FetchEnv) (name : String)
    (hs : (supabaseTier env).1 = none)
    (hl : (localTier env).1 = none)
    (hf : env.feeds ≠ []) :
    (liveArticles env name ≠ [] → env.localWriteOk = true →
      fetchNewsForCategory env (.rssCat name) = ⟨liveArticles env name, true⟩) ∧
    (liveArticles env name ≠ [] → env.localWriteOk = false →
      fetchNewsForCategory env (.rssCat name) = ⟨staleChoice env, true⟩) ∧
    (liveArticles env name = [] →
      fetchNewsForCategory env (.rssCat name) = ⟨staleChoice env, true⟩) := by
  refine ⟨?_, ?_, ?_⟩
  · intro h hw
    simp [fetchNewsForCategory, rssPath, hs, hl, isEmpty_false_of_ne hf,
      isEmpty_false_of_ne h, hw]
  · intro h hw
    by_cases h2 : (supabaseTier env).2 = []
    · by_cases h3 : (localTier env).2 = []
      · simp [fetchNewsForCategory, rssPath, staleChoice, hs, hl, isEmpty_false_of_ne hf,
          isEmpty_false_of_ne h, hw, h2, h3]
      · simp [fetchNewsForCategory, rssPath, staleChoice, hs, hl, isEmpty_false_of_ne hf,
          isEmpty_false_of_ne h, hw, h2, isEmpty_false_of_ne h3, h3]
    · simp [fetchNewsForCategory, rssPath, staleChoice, hs, hl, isEmpty_false_of_ne hf,
        isEmpty_false_of_ne h, hw, isEmpty_false_of_ne h2, h2]
  · intro h
    by_cases h2 : (supabaseTier env).2 = []
    · by_cases h3 : (localTier env).2 = []
      · simp [fetchNewsForCategory, rssPath, staleChoice, hs, hl, isEmpty_false_of_ne hf,
          h, h2, h3]
      · simp [fetchNewsForCategory, rssPath, staleChoice, hs, hl, isEmpty_false_of_ne hf,
          h, h2, isEmpty_false_of_ne h3, h3]
    · simp [fetchNewsForCategory, rssPath, staleChoice, hs, hl, isEmpty_false_of_ne hf,
        h, isEmpty_false_of_ne h2, h2]

/-- Environment of the C4 witness: no cache data anywhere, a feed whose
relays all fail, and a succeeding local write. -/
def c4env : FetchEnv :=
  { now := 0
    configured := false
    remote := .missing
    localEntry := .absent
    feeds := ["http://feed"]
    outcome := fun _ _ => .netError
    parse := ⟨id, id, fun _ => none⟩
    sourceNameOf := fun _ => "SRC"
    localWriteOk := true
    studioArticles := []
    galleryArticles := [] }

/-- Witness for C4 (amended): with empty caches and an entirely failing
live fetch, the call returns the empty sequence (after issuing the
fan-out). -/
theorem fetchNews_stale_fallback_witness :
    fetchNewsForCategory c4env (.rssCat "WORLD") = ⟨[], true⟩ := by
  have h := (fetchNews_stale_fallback c4env "WORLD" rfl rfl (by decide)).2.2 (by decide)
  exact h.trans (by decide)

/-! ## `geminiService.ts`: article enrichment (`enhanceArticle`)

The in-process `Map` caches and the Supabase tables are modelled as
association lists consed at the front (`Map.set` / upsert and
first-match lookup observe the same entries).  The Gemini text call is a
function of the prompt inputs; `none` models every failure the
`try/catch` swallows (missing key, thrown request, empty or unparsable
response text).  The fire-and-forget remote upsert is modelled as
applied to the remote table. -/

structure EnhancedArticleContent where
  fullArticle : String
  summaryShort : String
  summaryRomanUrdu : String
  summaryUrdu : String
  summaryHindi : String
  summaryTelugu : String
  fullArticleRomanUrdu : String
  fullArticleUrdu : String
  fullArticleHindi : String
  fullArticleTelugu : String
  deriving Repr, DecidableEq

/-- The deterministic degraded result returned when generation fails
(geminiService lines 130–143).  It is *returned but not cached*. -/
def fallbackContent (description : String) : EnhancedArticleContent :=
  { fullArticle := description ++ "\n\n(Full article generation unavailable at this moment.)"
    summaryShort := description
    summaryRomanUrdu := "Tarjuma dastiyab nahi hai."
    summaryUrdu := "ترجمہ دستیاب نہیں ہے۔"
    summaryHindi := "अनुवाद उपलब्ध नहीं है।"
    summaryTelugu := "అనువాదం అందుబాటులో లేదు."
    fullArticleRomanUrdu := description
    fullArticleUrdu := description
    fullArticleHindi := description
    fullArticleTelugu := description }

structure EnhanceEnv where
  configured : Bool
  generate : String → String → Option EnhancedArticleContent

structure EnhanceState where
  articleMemoryCache : List (String × EnhancedArticleContent)
  remoteArticles : List (String × EnhancedArticleContent)
  deriving Repr, DecidableEq

/-- Model of `enhanceArticle` (geminiService lines 27–144).  Returns the content,
the post-call state, and the number of generative-service invocations
(0 or 1).  Tier order: in-process map, then `ai_articles_cache` (only
when configured; a query error or missing row falls through), then
generation; a successful generation is written to both tiers, a failed
generation returns the fallback and writes nothing. -/
def enhanceArticle (env : EnhanceEnv) (st : EnhanceState)
    (id title description : String) : EnhancedArticleContent × EnhanceState × Nat :=
  match st.articleMemoryCache.lookup id with
  | some c => (c, st, 0)
  | none =>
    match (if env.configured then st.remoteArticles.lookup id else none) with
    | some c => (c, { st with articleMemoryCache := (id, c) :: st.articleMemoryCache }, 0)
    | none =>
      match env.generate title description with
      | some content =>
        (content,
          { articleMemoryCache := (id, content) :: st.articleMemoryCache
            remoteArticles :=
              if env.configured then (id, content) :: st.remoteArticles
              else st.remoteArticles },
          1)
      | none => (fallbackContent description, st, 1)

/-! ## `geminiService.ts`: audio narration (`generateNewsAudio`) -/

/-- Length of the `https?:\/\/\S+` match anchored at the head of the
character list (`0` when there is no match: the pattern needs at least
one non-whitespace character after the scheme). -/
def urlMatchLen (l : List Char) : Nat :=
  if "https://".data.isPrefixOf l then
    let k := ((l.drop 8).takeWhile (fun c => !c.isWhitespace)).length
    if k = 0 then 0 else 8 + k
  else if "http://".data.isPrefixOf l then
    let k := ((l.drop 7).takeWhile (fun c => !c.isWhitespace)).length
    if k = 0 then 0 else 7 + k
  else 0

/-- JavaScript `.replace(/https?:\/\/\S+/g, '')`, structurally recursive on a
fuel bound: left-to-right scan; at a match, drop the scheme and the
maximal following non-whitespace run and resume after it.  Every step
shortens the list, so fuel equal to the length is always sufficient and
the fuel-exhausted arm is unreachable. -/
def stripUrlsGo : Nat → List Char → List Char
  | 0, l => l
  | _ + 1, [] => []
  | fuel + 1, c :: rest =>
    if urlMatchLen (c :: rest) = 0 then c :: stripUrlsGo fuel rest
    else stripUrlsGo fuel ((c :: rest).drop (urlMatchLen (c :: rest)))

def stripUrls (l : List Char) : List Char := stripUrlsGo l.length l

/-- The character class of `.replace(/[*#_`~>\[\]\(\)]/g, '')`. -/
def isMarkdownChar (c : Char) : Bool :=
  c == '*' || c == '#' || c == '_' || c == Char.ofNat 96 || c == '~' || c == '>' ||
  c == '[' || c == ']' || c == '(' || c == ')'

def stripMarkdown (l : List Char) : List Char :=
  l.filter (fun c => !isMarkdownChar c)

/-- JavaScript `.replace(/\s+/g, ' ')`, structurally recursive on a fuel bound:
every maximal whitespace run becomes one space.  Each step shortens the
list (`dropWhile` never lengthens it), so fuel equal to the length is
always sufficient and the fuel-exhausted arm is unreachable. -/
def collapseWsGo : Nat → List Char → List Char
  | 0, l => l
  | _ + 1, [] => []
  | fuel + 1, c :: rest =>
    if c.isWhitespace then ' ' :: collapseWsGo fuel (rest.dropWhile Char.isWhitespace)
    else c :: collapseWsGo fuel rest

def collapseWs (l : List Char) : List Char := collapseWsGo l.length l

/-- The cleaning pipeline of `generateNewsAudio` (lines 168–173): URLs
removed, markdown characters removed, whitespace collapsed, trimmed. -/
def cleanTextOf (text : String) : String :=
  jsTrim (String.mk (collapseWs (stripMarkdown (stripUrls text.data))))

/-- UTF-8 bytes of one code point (the effect of
`unescape(encodeURIComponent(·))` per character). -/
def utf8BytesChar (c : Char) : List Nat :=
  let n := c.toNat
  if n < 128 then [n]
  else if n < 2048 then [192 + n / 64, 128 + n % 64]
  else if n < 65536 then [224 + n / 4096, 128 + (n / 64) % 64, 128 + n % 64]
  else [240 + n / 262144, 128 + (n / 4096) % 64, 128 + (n / 64) % 64, 128 + n % 64]

/-- Standard base64 alphabet digit. -/
def b64Digit (n : Nat) : Char :=
  if n < 26 then Char.ofNat (65 + n)
  else if n < 52 then Char.ofNat (97 + (n - 26))
  else if n < 62 then Char.ofNat (48 + (n - 52))
  else if n = 62 then '+'
  else '/'

/-- Base64 of a byte list with `=` padding (`btoa`). -/
def base64Chunks : List Nat → List Char
  | [] => []
  | [a] => [b64Digit (a / 4), b64Digit (a % 4 * 16), '=', '=']
  | [a, b] => [b64Digit (a / 4), b64Digit (a % 4 * 16 + b / 16), b64Digit (b % 16 * 4), '=']
  | a :: b :: c :: rest =>
    b64Digit (a / 4) :: b64Digit (a % 4 * 16 + b / 16) :: b64Digit (b % 16 * 4 + c / 64)
      :: b64Digit (c % 64) :: base64Chunks rest

/-- JavaScript `btoa(unescape(encodeURIComponent(s)))`: base64 of the UTF-8 bytes. -/
def btoaUtf8 (s : String) : String :=
  String.mk (base64Chunks ((s.data.map utf8BytesChar).flatten))

/-- The audio cache key (line 147):
`btoa(unescape(encodeURIComponent(text.trim().slice(0, 100) + text.length)))`
— a function of the *raw* input's trimmed 100-character head and the
raw input's length, computed before any cleaning. -/
def audioCacheKey (text : String) : String :=
  btoaUtf8 (jsSubstring (jsTrim text) 100 ++ toString text.length)

structure AudioEnv where
  configured : Bool
  tts : String → Option String

structure AudioState where
  audioMemoryCache : List (String × String)
  remoteAudio : List (String × String)
  deriving Repr, DecidableEq

/-- Model of `generateNewsAudio` (geminiService lines 146–222): both cache tiers
are consulted on the raw-input key before the text is cleaned or
validated; only then is the cleaned text checked for emptiness (explicit
error, nothing written), truncated to 4000 characters, and sent to the
TTS call; a TTS failure raises (no fallback audio, nothing written);
success writes through both tiers. -/
def generateNewsAudio (env : AudioEnv) (st : AudioState) (text : String) :
    Except String String × AudioState :=
  let cacheKey := audioCacheKey text
  match st.audioMemoryCache.lookup cacheKey with
  | some audio => (.ok audio, st)
  | none =>
    match (if env.configured then st.remoteAudio.lookup cacheKey else none) with
    | some audio =>
      (.ok audio, { st with audioMemoryCache := (cacheKey, audio) :: st.audioMemoryCache })
    | none =>
      let cleanText := cleanTextOf text
      if cleanText = "" then (.error "Audio generation failed: Empty text", st)
      else
        match env.tts (jsSubstring cleanText 4000) with
        | some base64Audio =>
          (.ok base64Audio,
            { audioMemoryCache := (cacheKey, base64Audio) :: st.audioMemoryCache
              remoteAudio :=
                if env.configured then (cacheKey, base64Audio) :: st.remoteAudio
                else st.remoteAudio })
        | none => (.error "TTS generation failed.", st)

/-! ## Claim C6: enrichment memoisation -/

/-- Both calls of the "requested twice in one session" scenario: the
second call runs on the state left by the first. -/
def enhanceCallPair (env : EnhanceEnv) (st : EnhanceState)
    (id title description : String) :
    (EnhancedArticleContent × EnhanceState × Nat) × (EnhancedArticleContent × EnhanceState × Nat) :=
  let r1 := enhanceArticle env st id title description
  (r1, enhanceArticle env r1.2.1 id title description)

/-- A concrete enrichment payload. -/
def c6content : EnhancedArticleContent :=
  ⟨"fa", "ss", "sr", "su", "sh", "st", "fr", "fu", "fh", "ft"⟩

/-- Environment whose generative call always fails. -/
def c6envFail : EnhanceEnv := ⟨false, fun _ _ => none⟩

/-- Environment whose generative call succeeds. -/
def c6envOk : EnhanceEnv := ⟨false, fun _ _ => some c6content⟩

/-- Claim C6 counterexample: with empty caches and a failing generative
call, requesting enrichment twice for the same identifier invokes the
generative service twice — the failure fallback is returned but never
written to the in-process cache, so the second call generates again.
This falsifies both halves of the claim («invoked at most once across
the two calls», «second call returns the in-process cached value»). -/
theorem enhance_twice_counterexample :
    (enhanceCallPair c6envFail ⟨[], []⟩ "a1" "T" "D").1.2.2
      + (enhanceCallPair c6envFail ⟨[], []⟩ "a1" "T" "D").2.2.2 = 2
    ∧ (enhanceCallPair c6envFail ⟨[], []⟩ "a1" "T" "D").1.2.1.articleMemoryCache = [] := by
  decide

/-- Claim C6 (amended): *provided the first call obtains content* — an
in-process hit, a configured remote hit, or a successful generation —
the generative service is invoked at most once across the two calls,
the second call returns the first call's content, and that content is
exactly the value the first call left in the in-process cache.  (When
the first call's generation fails, the fallback is not cached and a
second call invokes the service again; see the counterexample.) -/
theorem enhance_twice_memoized (env : EnhanceEnv) (st : EnhanceState)
    (id title description : String)
    (h : (st.articleMemoryCache.lookup id).isSome = true
        ∨ (env.configured = true ∧ (st.remoteArticles.lookup id).isSome = true)
        ∨ (env.generate title description).isSome = true) :
    (enhanceCallPair env st id title description).1.2.2
      + (enhanceCallPair env st id title description).2.2.2 ≤ 1
    ∧ (enhanceCallPair env st id title description).2.1
        = (enhanceCallPair env st id title description).1.1
    ∧ (enhanceCallPair env st id title description).1.2.1.articleMemoryCache.lookup id
        = some (enhanceCallPair env st id title description).2.1 := by
  cases hm : st.articleMemoryCache.lookup id with
  | some c =>
    refine ⟨?_, ?_, ?_⟩ <;> simp [enhanceCallPair, enhanceArticle, hm]
  | none =>
    cases hr : (if env.configured then st.remoteArticles.lookup id else none) with
    | some c =>
      refine ⟨?_, ?_, ?_⟩ <;> simp [enhanceCallPair, enhanceArticle, hm, hr, List.lookup]
    | none =>
      cases hg : env.generate title description with
      | some content =>
        refine ⟨?_, ?_, ?_⟩ <;> simp [enhanceCallPair, enhanceArticle, hm, hr, hg, List.lookup]
      | none =>
        exfalso
        rcases h with h1 | ⟨hconf, h2⟩ | h3
        · rw [hm] at h1; simp at h1
        · rw [hconf] at hr
          simp only [if_true] at hr
          rw [hr] at h2
          simp at h2
        · rw [hg] at h3; simp at h3

/-- Witness for C6: with a succeeding generative call and empty caches,
the two calls together invoke the service at most once. -/
theorem enhance_twice_memoized_witness :
    (enhanceCallPair c6envOk ⟨[], []⟩ "a1" "T" "D").1.2.2
      + (enhanceCallPair c6envOk ⟨[], []⟩ "a1" "T" "D").2.2.2 ≤ 1 :=
  (enhance_twice_memoized c6envOk ⟨[], []⟩ "a1" "T" "D" (Or.inr (Or.inr (by decide)))).1

/-! ## Claims C7, C9, C10: the audio path -/

/-- Claim C10: `generateNewsAudio` consults both cache tiers on the
raw-input key *before* cleaning or validating the text: an in-process
hit (first conjunct) or a configured remote hit (second conjunct)
returns the cached base64 payload unconditionally — in particular even
when `cleanTextOf text = ""` — and the empty-text error can only be
raised when neither tier held an entry under the computed key (third
conjunct). -/
theorem audio_cache_consulted_before_cleaning (env : AudioEnv) (st : AudioState)
    (text : String) :
    (∀ audio, st.audioMemoryCache.lookup (audioCacheKey text) = some audio →
      generateNewsAudio env st text = (.ok audio, st)) ∧
    (∀ audio, st.audioMemoryCache.lookup (audioCacheKey text) = none →
      env.configured = true →
      st.remoteAudio.lookup (audioCacheKey text) = some audio →
      generateNewsAudio env st text =
        (.ok audio,
          { st with audioMemoryCache := (audioCacheKey text, audio) :: st.audioMemoryCache })) ∧
    (∀ e st2, generateNewsAudio env st text = (.error e, st2) →
      st.audioMemoryCache.lookup (audioCacheKey text) = none ∧
      (env.configured = true → st.remoteAudio.lookup (audioCacheKey text) = none)) := by
  refine ⟨?_, ?_, ?_⟩
  · intro audio hm
    simp [generateNewsAudio, hm]
  · intro audio hm hconf hrem
    simp [generateNewsAudio, hm, hconf, hrem]
  · intro e st2 hres
    cases hm : st.audioMemoryCache.lookup (audioCacheKey text) with
    | some audio => simp [generateNewsAudio, hm] at hres
    | none =>
      refine ⟨rfl, ?_⟩
      intro hconf
      cases hrem : st.remoteAudio.lookup (audioCacheKey text) with
      | some audio => simp [generateNewsAudio, hm, hconf, hrem] at hres
      | none => rfl

/-- Witness for C10: an input that cleans to empty, but whose key is
already present in the in-process cache, returns the cached payload
(and raises no error). -/
theorem audio_cache_before_cleaning_witness :
    generateNewsAudio ⟨false, fun _ => none⟩
        ⟨[(audioCacheKey "https://x.com", "AUDIO")], []⟩ "https://x.com"
      = (.ok "AUDIO", ⟨[(audioCacheKey "https://x.com", "AUDIO")], []⟩) :=
  (audio_cache_consulted_before_cleaning ⟨false, fun _ => none⟩
      ⟨[(audioCacheKey "https://x.com", "AUDIO")], []⟩ "https://x.com").1 "AUDIO" (by decide)

/-- Claim C7 counterexample: `"https://x.com"` cleans to the empty string,
yet when a cache entry already exists under its (raw-input) key the call
returns that entry's payload instead of raising the empty-text error —
the caches are consulted before cleaning (see C10). -/
theorem audio_empty_error_counterexample :
    cleanTextOf "https://x.com" = "" ∧
    (generateNewsAudio ⟨false, fun _ => none⟩
        ⟨[(audioCacheKey "https://x.com", "AUDIO")], []⟩ "https://x.com").1
      = .ok "AUDIO" := by
  exact ⟨by decide, rfl⟩

/-- Claim C7 (amended): *for inputs with no pre-existing entry under the
computed key at either tier*, a text whose cleaned form is empty makes
`generateNewsAudio` raise the explicit empty-text error with the state
unchanged (no cache entry written); and under those hypotheses every
raised error leaves the state unchanged (no fallback audio, nothing
cached) and is either the empty-text error case or a failure of the
generation call itself. -/
theorem audio_empty_error_amended (env : AudioEnv) (st : AudioState) (text : String)
    (hm : st.audioMemoryCache.lookup (audioCacheKey text) = none)
    (hr : env.configured = true → st.remoteAudio.lookup (audioCacheKey text) = none) :
    (cleanTextOf text = "" →
      generateNewsAudio env st text = (.error "Audio generation failed: Empty text", st)) ∧
    (∀ e st2, generateNewsAudio env st text = (.error e, st2) →
      st2 = st ∧
        (cleanTextOf text = "" ∨ env.tts (jsSubstring (cleanTextOf text) 4000) = none)) := by
  have hrem : (if env.configured then st.remoteAudio.lookup (audioCacheKey text) else none)
      = none := by
    cases hc : env.configured
    · simp
    · simp [hr hc]
  constructor
  · intro hclean
    simp [generateNewsAudio, hm, hrem, hclean]
  · intro e st2 hres
    by_cases hclean : cleanTextOf text = ""
    · simp [generateNewsAudio, hm, hrem, hclean] at hres
      exact ⟨hres.2.symm, Or.inl hclean⟩
    · cases htts : env.tts (jsSubstring (cleanTextOf text) 4000) with
      | some audio => simp [generateNewsAudio, hm, hrem, hclean, htts] at hres
      | none =>
        simp [generateNewsAudio, hm, hrem, hclean, htts] at hres
        exact ⟨hres.2.symm, Or.inr rfl⟩

/-- Witness for C7: with empty caches, the URL-only input raises the
empty-text error and writes nothing. -/
theorem audio_empty_error_witness :
    generateNewsAudio ⟨false, fun _ => none⟩ ⟨[], []⟩ "https://x.com"
      = (.error "Audio generation failed: Empty text", ⟨[], []⟩) :=
  (audio_empty_error_amended ⟨false, fun _ => none⟩ ⟨[], []⟩ "https://x.com"
      (by decide) (by decide)).1 (by decide)

/-- Claim C9 counterexample: `"hello"` and `" hello"` narrate the same
speech text (identical cleaned and truncated forms) yet receive
*different* audio cache keys, because the key is computed from the raw
input's trimmed head concatenated with the *raw* input's length — not
from the narrated text. -/
theorem audio_key_counterexample :
    cleanTextOf "hello" = cleanTextOf " hello" ∧
    jsSubstring (cleanTextOf "hello") 4000 = jsSubstring (cleanTextOf " hello") 4000 ∧
    audioCacheKey "hello" ≠ audioCacheKey " hello" := by
  decide

/-- Claim C9 (amended): the audio cache key is
`btoa(utf8(text.trim().slice(0,100) + text.length))` — a function of the
raw input (trimmed 100-character head and raw length), computed before
cleaning, not of the narrated speech text.  Every successful call leaves
the in-process cache holding the returned payload under exactly that
raw-input key, and two raw inputs with equal trimmed forms and equal
lengths always share a key. -/
theorem audio_key_raw_input (env : AudioEnv) (st : AudioState) (text : String) :
    (∀ audio st2, generateNewsAudio env st text = (.ok audio, st2) →
      st2.audioMemoryCache.lookup (audioCacheKey text) = some audio) ∧
    (∀ t1 t2 : String, jsTrim t1 = jsTrim t2 → t1.length = t2.length →
      audioCacheKey t1 = audioCacheKey t2) := by
  constructor
  · intro audio st2 hres
    cases hm : st.audioMemoryCache.lookup (audioCacheKey text) with
    | some a =>
      simp [generateNewsAudio, hm] at hres
      rw [← hres.2, hm, hres.1]
    | none =>
      cases hrem : (if env.configured then st.remoteAudio.lookup (audioCacheKey text) else none) with
      | some a =>
        simp [generateNewsAudio, hm, hrem] at hres
        rw [← hres.2]
        simp [List.lookup, hres.1]
      | none =>
        by_cases hclean : cleanTextOf text = ""
        · simp [generateNewsAudio, hm, hrem, hclean] at hres
        · cases htts : env.tts (jsSubstring (cleanTextOf text) 4000) with
          | some a =>
            simp [generateNewsAudio, hm, hrem, hclean, htts] at hres
            rw [← hres.2]
            simp [List.lookup, hres.1]
          | none => simp [generateNewsAudio, hm, hrem, hclean, htts] at hres
  · intro t1 t2 h1 h2
    unfold audioCacheKey
    rw [h1, h2]

/-- Witness for C9: `" ab"` and `"ab "` have equal trimmed forms and
equal raw lengths, so they share an audio cache key. -/
theorem audio_key_raw_input_witness :
    audioCacheKey " ab" = audioCacheKey "ab " :=
  (audio_key_raw_input ⟨false, fun _ => none⟩ ⟨[], []⟩ "").2 " ab" "ab " (by decide) (by decide)

/-- A concrete article used by the C1 witness. -/
def c1wArticle : Article := ⟨"i1", "Cached", "SRC", "10:00", "d", "WORLD", "http://u", ""⟩

/-- Environment of the C1 witness: a fresh non-empty remote cache row. -/
def c1wenv : FetchEnv :=
  { now := 1000
    configured := true
    remote := .row 1000 [c1wArticle]
    localEntry := .absent
    feeds := []
    outcome := fun _ _ => .netError
    parse := ⟨id, id, fun _ => none⟩
    sourceNameOf := fun _ => "SRC"
    localWriteOk := true
    studioArticles := []
    galleryArticles := [] }

/-- Witness for C1 (amended): a fresh non-empty remote row is returned
exactly, with no relay fetch. -/
theorem fetchNews_fresh_cache_witness :
    fetchNewsForCategory c1wenv (.rssCat "WORLD") = ⟨[c1wArticle], false⟩ :=
  (fetchNews_fresh_cache_tiers c1wenv "WORLD").1 1000 [c1wArticle] rfl rfl
    (by decide) (by decide)
